import Mathlib

/-!
Verification development for the eSSL attendance pipeline, centred on the
rules-evaluation engine of `fill_master_shiftaware_mod.py`.

Shallow embedding: wall-clock instants are whole minutes since a reference
midnight (Python `datetime` objects produced by `strptime("%H:%M")` all
live on the same reference date, and only differences and comparisons are
used), embedded as `ℕ`; Python float arithmetic (worked hours, thresholds,
averages) is modelled as exact `ℚ`; Python string operations are modelled
over `List Char`.
-/

namespace Attendance

/-- Removes the literal character sequence `p` from the front of the second
list when it starts with `p`, returning the remainder; `none` otherwise.
Used to model Python `str.startswith` and substring search. -/
def dropMatch : List Char → List Char → Option (List Char)
  | [], cs => some cs
  | _ :: _, [] => none
  | p :: ps, c :: cs => if p = c then dropMatch ps cs else none

/-- Fuel-driven worker for `splitOnC`; the fuel is the length of the input,
which suffices because every step consumes at least one character. -/
def splitGo (sep : List Char) : Nat → List Char → List Char → List (List Char)
  | 0, cs, acc => [acc.reverse ++ cs]
  | n + 1, cs, acc =>
    match cs with
    | [] => [acc.reverse]
    | c :: rest =>
      match dropMatch sep cs with
      | some rem => acc.reverse :: splitGo sep n rem []
      | none => splitGo sep n rest (c :: acc)

/-- Models Python `s.split(sep)` for a nonempty separator: splits `cs` at
every occurrence of `sep`. -/
def splitOnC (sep cs : List Char) : List (List Char) :=
  if sep.isEmpty then [cs] else splitGo sep cs.length cs []

/-- Models Python `t in s` (substring containment) for nonempty `t`:
`t` occurs in `s` iff splitting on `t` yields at least two pieces. -/
def pyContainsC (s t : List Char) : Bool :=
  2 ≤ (splitOnC t s).length

/-- Models Python `s.startswith(p)`. -/
def startsWithC (p s : List Char) : Bool :=
  (dropMatch p s).isSome

/-- Models Python `s.strip()`: removes whitespace from both ends. -/
def trimC (cs : List Char) : List Char :=
  ((cs.dropWhile Char.isWhitespace).reverse.dropWhile Char.isWhitespace).reverse

/-- Models Python `s.lower()` for the ASCII text handled here. -/
def lowerC (cs : List Char) : List Char :=
  cs.map Char.toLower

/-- Numeric value of a digit string (most significant digit first). -/
def digitsToNat (cs : List Char) : Nat :=
  cs.foldl (fun n c => 10 * n + (c.toNat - 48)) 0

/-- Models `datetime.strptime(txt, "%H:%M")` (after stripping) as minutes
since midnight: one or two digits for the hour (0–23), a colon, one or two
digits for the minute (0–59); anything else raises, modelled as `none`.
All wall-clock instants produced by the program are whole minutes on a
common reference date, so they are embedded as natural-number minutes.
From `_parse_hhmm`, `fill_master_shiftaware_mod.py` lines 30–35. -/
def parseHHMMC (cs : List Char) : Option ℕ :=
  match splitOnC [':'] cs with
  | [h, m] =>
    if h ≠ [] ∧ h.length ≤ 2 ∧ h.all Char.isDigit ∧
        m ≠ [] ∧ m.length ≤ 2 ∧ m.all Char.isDigit then
      let hv := digitsToNat h
      let mv := digitsToNat m
      if hv ≤ 23 ∧ mv ≤ 59 then some (hv * 60 + mv) else none
    else none
  | _ => none

/-- Embeds `_parse_hhmm` (`fill_master_shiftaware_mod.py` lines 30–35):
strips the text, then parses it as `"HH:MM"` wall-clock minutes. -/
def parse_hhmm (txt : String) : Option ℕ :=
  parseHHMMC (trimC txt.toList)

/-- Embeds `_parse_hhmm_range` (`fill_master_shiftaware_mod.py` lines
38–54): splits `"HH:MM - HH:MM"` on the dash (Python splits with
`re.split(r'\s*-\s*', ...)`; surrounding whitespace is equally discarded
here because `_parse_hhmm` strips each piece), requires exactly two pieces
that both parse, and adds 24h to the end when it is earlier than the
start (overnight shift). -/
def parse_hhmm_range (s : String) : Option ℕ × Option ℕ :=
  match splitOnC ['-'] (trimC s.toList) with
  | [a, b] =>
    match parseHHMMC (trimC a), parseHHMMC (trimC b) with
    | some st, some en => (some st, some (if en < st then en + 1440 else en))
    | _, _ => (none, none)
  | _ => (none, none)

/-- Models Python `int(s)`: optional sign followed by at least one digit
(the argument is already stripped at every call site). -/
def pyIntC (cs : List Char) : Option ℤ :=
  match cs with
  | '-' :: ds =>
    if ds ≠ [] ∧ ds.all Char.isDigit then some (-(digitsToNat ds : ℤ)) else none
  | '+' :: ds =>
    if ds ≠ [] ∧ ds.all Char.isDigit then some (digitsToNat ds : ℤ) else none
  | ds =>
    if ds ≠ [] ∧ ds.all Char.isDigit then some (digitsToNat ds : ℤ) else none

/-- Models Python `int(q)` on a float: truncation toward zero. -/
def pytrunc (q : ℚ) : ℤ :=
  if 0 ≤ q then ⌊q⌋ else -⌊-q⌋

/-- Models Python `round(x, 2)`: round half to even at two decimals
(floats are modelled as exact rationals). -/
def pyround2 (q : ℚ) : ℚ :=
  let y := q * 100
  let f := ⌊y⌋
  let r : ℤ :=
    if y - f < 1 / 2 then f
    else if 1 / 2 < y - f then f + 1
    else if f % 2 = 0 then f else f + 1
  (r : ℚ) / 100

/-- The `late_override` field of a parsed directive is either an explicit
boolean verdict (`False` in the code, set by `"in:"` comments) or an
integer minutes threshold (set by `"late:"` comments), mirroring the
dynamically typed `o["late_override"]` of `override_by_comment`. -/
inductive LateOv where
  | asBool (b : Bool)
  | asMinutes (n : ℤ)
deriving DecidableEq, Repr

/-- Numeric value Python obtains when an override is used in the comparison
`minutes > late_threshold_minutes`: a `bool` compares as `0` or `1`. -/
def LateOv.threshold : LateOv → ℚ
  | .asBool b => if b then 1 else 0
  | .asMinutes n => (n : ℚ)

/-- The directive dictionary `o` built by `override_by_comment`
(`fill_master_shiftaware_mod.py` line 61); `extra_wh` is in hours. -/
structure Override where
  force_status : Option String := none
  skip_half_day : Bool := false
  late_override : Option LateOv := none
  extra_wh : ℚ := 0
deriving DecidableEq, Repr

/-- Is the character one of the two time separators of the regex
`\d{1,2}[:\.]\d{1,2}`? -/
def isTimeSep (c : Char) : Bool :=
  c = ':' ∨ c = '.'

/-- Greedy match of the minute part `\d{1,2}` of the time-token regex:
two digits if available, else one. -/
def matchMins : List Char → Option (List Char × List Char)
  | m0 :: m1 :: rest =>
    if m0.isDigit then
      if m1.isDigit then some ([m0, m1], rest) else some ([m0], m1 :: rest)
    else none
  | [m0] => if m0.isDigit then some ([m0], []) else none
  | [] => none

/-- After the hour digits and separator are matched, matches
`\d{1,2}\s*(?:am|pm)?` greedily and returns the full token (the capture
group includes the trailing whitespace) together with the rest of the
input. -/
def matchTimeTail (sep : Char) (hd rest : List Char) :
    Option (List Char × List Char) :=
  match matchMins rest with
  | some (mins, rest2) =>
    let sp := rest2.takeWhile Char.isWhitespace
    let rest3 := rest2.drop sp.length
    match rest3 with
    | a :: m :: r =>
      if (a.toLower = 'a' ∨ a.toLower = 'p') ∧ m.toLower = 'm' then
        some (hd ++ [sep] ++ mins ++ sp ++ [a, m], r)
      else some (hd ++ [sep] ++ mins ++ sp, rest3)
    | _ => some (hd ++ [sep] ++ mins ++ sp, rest3)
  | none => none

/-- Attempts to match the regex `\d{1,2}[:\.]\d{1,2}\s*(?:am|pm)?` at the
head of the input, with the regex engine's backtracking on the greedy
`\d{1,2}` hour part: two hour digits are tried first; the one-digit
alternative only applies when the second character is a separator. -/
def matchTimeAt : List Char → Option (List Char × List Char)
  | c0 :: c1 :: c2 :: rest =>
    if c0.isDigit then
      if c1.isDigit ∧ isTimeSep c2 then matchTimeTail c2 [c0, c1] rest
      else if isTimeSep c1 then matchTimeTail c1 [c0] (c2 :: rest)
      else none
    else none
  | _ => none

/-- Fuel-driven scanner worker; fuel is the input length (every step
consumes at least one character). -/
def scanGo : Nat → List Char → List (List Char)
  | 0, _ => []
  | _ + 1, [] => []
  | n + 1, c :: rest =>
    match matchTimeAt (c :: rest) with
    | some (tok, rem) => tok :: scanGo n rem
    | none => scanGo n rest

/-- Models `re.findall(r'(\d{1,2}[:\.]\d{1,2}\s*(?:am|pm)?)', note, re.I)`
(`fill_master_shiftaware_mod.py` line 82): all non-overlapping matches,
left to right, on the original (unlowered, unstripped) note. -/
def scanTimeTokens (cs : List Char) : List (List Char) :=
  scanGo cs.length cs

/-- Models the external `dateutil.parser.parse(t_str, fuzzy=True)` call of
`override_by_comment` for the token shapes the time regex can produce
(`H:MM` or `H.MM`, optional whitespace and am/pm), returning seconds since
midnight on dateutil's common default date: `H:MM` is an hour/minute pair;
`H.MM` is read as the decimal number `H.MM` of hours, whose integer part
is the hour and whose fractional part is spread over minutes and seconds
by truncation; pm adds 12 to hours 1–11, and 12am means hour 0;
out-of-range fields make dateutil raise, which the caller swallows
(`none` here). -/
def dtParseTime (tok : List Char) : Option ℕ :=
  let t := trimC tok
  let h := t.takeWhile Char.isDigit
  let r1 := t.drop h.length
  match r1 with
  | sep :: r2 =>
    let m := r2.takeWhile Char.isDigit
    let r3 := trimC (r2.drop m.length)
    let hv := digitsToNat h
    let mv := digitsToNat m
    if h ≠ [] ∧ m ≠ [] then
      let ampm : Option Bool :=
        if lowerC r3 = ['a', 'm'] then some false
        else if lowerC r3 = ['p', 'm'] then some true
        else none
      if r3 ≠ [] ∧ ampm = none then none
      else
        let minsec : ℕ :=
          if sep = ':' then mv * 60
          else
            let den := 10 ^ m.length
            let minute := 60 * mv / den
            let second := 60 * (60 * mv % den) / den
            minute * 60 + second
        let hourOk : Bool :=
          match ampm with
          | none => hv ≤ 23
          | some _ => 1 ≤ hv ∧ hv ≤ 12
        if hourOk ∧ (if sep = ':' then mv ≤ 59 else true) then
          let h24 : ℕ :=
            match ampm with
            | none => hv
            | some true => if hv = 12 then 12 else hv + 12
            | some false => if hv = 12 then 0 else hv
          some (h24 * 3600 + minsec)
        else none
    else none
  | [] => none

/-- Does the string match `^\d{1,2}:\d{2}$` (the first forced-out-time
pattern of `override_by_comment`, line 100)? -/
def reHHMMColon (cs : List Char) : Bool :=
  match splitOnC [':'] cs with
  | [h, m] =>
    h ≠ [] ∧ h.length ≤ 2 ∧ h.all Char.isDigit ∧ m.length = 2 ∧ m.all Char.isDigit
  | _ => false

/-- Does the string match `^\d{3,4}$` (the second forced-out-time pattern
of `override_by_comment`, line 102)? -/
def reDigits34 (cs : List Char) : Bool :=
  (cs.length = 3 ∨ cs.length = 4) ∧ cs.all Char.isDigit

/-- Models `datetime.strptime(out_str, "%H:%M")` on a string already known
to match `^\d{1,2}:\d{2}$`: minutes since midnight, `none` when a field is
out of range (the exception is swallowed by the caller). -/
def strptimeColon (cs : List Char) : Option ℕ :=
  parseHHMMC cs

/-- Models `datetime.strptime(out_str, "%H%M")` on a 4-digit string:
first two digits are the hour, last two the minute. -/
def strptimeHHMM (cs : List Char) : Option ℕ :=
  match cs with
  | [h1, h2, m1, m2] =>
    let hv := digitsToNat [h1, h2]
    let mv := digitsToNat [m1, m2]
    if hv ≤ 23 ∧ mv ≤ 59 then some (hv * 60 + mv) else none
  | _ => none

/-- The `"out:"` block of `override_by_comment`
(`fill_master_shiftaware_mod.py` lines 79–112): with `"back in:"` present,
all embedded time tokens of the original note are extracted and the first
two that parse give `extra_wh` as their difference in hours, with status
forced to `P` and the half-day rule skipped; otherwise the text after
`"out:"` is parsed as a single forced out-time (`HH:MM` or `HHMM`), and,
when an in-time exists, `extra_wh` is the in-to-forced-out duration in
hours (24h added when the forced out-time is earlier) and status is forced
to `P`. Failures leave the directive untouched. -/
def outBranch (note : String) (nl : List Char) (t_in : Option ℚ) : Override :=
  if pyContainsC nl "back in:".toList then
    let ts := (scanTimeTokens note.toList).filterMap dtParseTime
    let base : Override :=
      match ts with
      | a :: b :: _ => { extra_wh := ((b : ℚ) - (a : ℚ)) / 3600 }
      | _ => {}
    { base with force_status := some "P", skip_half_day := true }
  else
    match (splitOnC "out:".toList nl).get? 1 with
    | some tail =>
      let out_str := trimC tail
      let forced : Option ℕ :=
        if reHHMMColon out_str then strptimeColon out_str
        else if reDigits34 out_str then
          strptimeHHMM (if out_str.length = 3 then '0' :: out_str else out_str)
        else none
      match forced, t_in with
      | some fo, some ti =>
        let fo2 : ℚ := if (fo : ℚ) < ti then (fo : ℚ) + 1440 else (fo : ℚ)
        { extra_wh := (fo2 - ti) / 60, force_status := some "P" }
      | _, _ => {}
    | none => {}

/-- Embeds `override_by_comment` (`fill_master_shiftaware_mod.py` lines
59–129). The exact phrases `"short leave"` and `"half day"` return
immediately; the `"out:"` block (see `outBranch`) does not return; a note
starting with `"in:"` then forces `P`, skips the half-day rule, sets the
explicit `False` late verdict and returns; otherwise a trailing `"late:"`
with an integer payload sets a minutes threshold. -/
def override_by_comment (note : String) (t_in _t_out : Option ℚ) : Override :=
  if note = "" then {}
  else
    let nl := lowerC (trimC note.toList)
    if nl = "short leave".toList then
      { force_status := some "P", skip_half_day := true }
    else if nl = "half day".toList then
      { force_status := some "0.5P", skip_half_day := true }
    else
      let o := if pyContainsC nl "out:".toList then outBranch note nl t_in else {}
      if startsWithC "in:".toList nl then
        { o with force_status := some "P", skip_half_day := true,
                 late_override := some (.asBool false) }
      else if pyContainsC nl "late:".toList then
        match (splitOnC "late:".toList nl).get? 1 with
        | some tail =>
          match pyIntC (trimC tail) with
          | some k => { o with late_override := some (.asMinutes k) }
          | none => o
        | none => o
      else o

/-- The `SHIFT_START_DEFAULTS` dictionary
(`fill_master_shiftaware_mod.py` lines 12–17). -/
def SHIFT_START_DEFAULTS : List (String × String) :=
  [("FS", "08:00"), ("First", "08:00"),
   ("GS", "09:30"), ("General", "09:30"),
   ("SS", "11:30"), ("Second", "11:30"),
   ("NS", "20:30"), ("Night", "20:30")]

/-- The `DEFAULT_SHIFT_RANGES` dictionary
(`fill_master_shiftaware_mod.py` lines 22–27). -/
def DEFAULT_SHIFT_RANGES : List (String × String) :=
  [("FS", "08:00 - 17:00"), ("First", "08:00 - 17:00"),
   ("GS", "09:30 - 18:30"), ("General", "09:30 - 18:30"),
   ("SS", "13:00 - 21:30"), ("Second", "13:00 - 21:30"),
   ("NS", "20:00 - 08:00"), ("Night", "20:00 - 08:00")]

/-- The shift-start lookup provided by `parsed_shift_schedules` when no
custom shift times are supplied (`build_master` lines 179–183): an entry
exists for a code exactly when both ends of its default range parse, and
the per-day loop only ever reads its `"start"` member. -/
def parsedShiftSchedules (code : String) : Option ℕ :=
  match DEFAULT_SHIFT_RANGES.lookup code with
  | some r =>
    match parse_hhmm_range r with
    | (some st, some _) => some st
    | _ => none
  | none => none

/-- Scheduled start used for the late check (`build_master` lines
344–347): the schedules table first, then `SHIFT_START_DEFAULTS` with the
General Shift start `"09:30"` as final fallback. -/
def lateCheckStart (sched : String → Option ℕ) (code : String) : Option ℕ :=
  match sched code with
  | some s => some s
  | none => parse_hhmm ((SHIFT_START_DEFAULTS.lookup code).getD "09:30")

/-- Recomputation of `t_out` from a directive's `extra_wh`
(`build_master` lines 288–293): when `extra_wh > 0` and an in-time exists,
the out-time is replaced by `t_in + extra_wh` hours (with a defensive
day-wrap that can never fire since `extra_wh > 0`). -/
def computeTOut (t_in t_out : Option ℚ) (extra_wh : ℚ) : Option ℚ :=
  if 0 < extra_wh then
    match t_in with
    | some ti =>
      let to1 := ti + extra_wh * 60
      some (if to1 < ti then to1 + 1440 else to1)
    | none => t_out
  else t_out

/-- Worked hours for the day (`build_master` lines 296–302): the in-to-out
difference in hours, reinterpreting the out-time as next-day when it is
earlier than the in-time; `0` when either punch is missing. -/
def computeWH (t_in t_out : Option ℚ) : ℚ :=
  match t_in, t_out with
  | some ti, some t2 => if t2 < ti then (t2 + 1440 - ti) / 60 else (t2 - ti) / 60
  | _, _ => 0

/-- Final-status resolution (`build_master` lines 304–318): a forced
status wins; else a raw `"P"` or empty status is resolved from worked
hours (`≥ 7` keeps `P`; `3 ≤ wh < 7` gives `0.5P` unless the directive
skips the half-day rule; otherwise `A`); any other raw status is adopted
unchanged. -/
def resolveStatus (status : String) (wh : ℚ) (ov : Override) : String :=
  match ov.force_status with
  | some fs => fs
  | none =>
    if status = "P" ∨ status = "" then
      if 7 ≤ wh then "P"
      else if 3 ≤ wh ∧ wh < 7 then
        if ov.skip_half_day then "P" else "0.5P"
      else "A"
    else status

/-- The presence-equivalent codes of the late check
(`build_master` line 340). -/
def presenceCodes : List String := ["P", "0.5P", "L", "OD1", "OD2"]

/-- Late-mark determination (`build_master` lines 338–361): only for
presence-equivalent statuses with an in-time; the threshold defaults to 15
minutes and is replaced by the directive's `late_override` used as a
number (Python's `False` compares as `0`); when no scheduled start is
resolvable at all, the biometric `Late By` text is used instead. -/
def computeLate (sched : String → Option ℕ) (final1 : String) (t_in : Option ℚ)
    (shift_code : String) (late_txt : String) (ov : Override) : Bool :=
  match t_in with
  | some ti =>
    if presenceCodes.contains final1 then
      match lateCheckStart sched shift_code with
      | some sst =>
        let thr : ℚ :=
          match ov.late_override with
          | some lo => lo.threshold
          | none => 15
        if thr < ti - (sst : ℚ) then true else false
      | none =>
        let lt := trimC late_txt.toList
        if lt ≠ [] ∧ lt ≠ "00:00".toList then
          match parseHHMMC lt with
          | some v => if 15 < v then true else false
          | none => false
        else false
    else false
  | none => false

/-- The OT-eligibility test `(filter_set is None) or (emp_id in
filter_set)` (`build_master` line 377). -/
def otBranchOf (filter_set : Option (List String)) (emp_id : String) : Bool :=
  filter_set.isNone || (filter_set.getD []).contains emp_id

/-- Daily overtime (`build_master` lines 371–382): only on the OT branch,
only when there was working time and `extra = wh - 8.5 > 0`; the value is
`int(extra)` plus one extra hour when the fractional remainder reaches
three quarters. -/
def computeOT (otB : Bool) (wh : ℚ) : ℤ :=
  if 0 < wh then
    let extra := wh - 17 / 2
    if otB then
      if 0 < extra then
        pytrunc extra + (if 3 / 4 ≤ extra - pytrunc extra then 1 else 0)
      else 0
    else 0
  else 0

/-- Daily comp-off increment (`build_master` lines 383–388): only on the
non-OT branch, only when there was working time; `0.5` for
`3.5 ≤ extra < 4.0` and `1.0` for `extra ≥ 7.0`. -/
def computeCoff (otB : Bool) (wh : ℚ) : ℚ :=
  if 0 < wh then
    let extra := wh - 17 / 2
    if otB then 0
    else if 7 / 2 ≤ extra ∧ extra < 4 then 1 / 2
    else if 7 ≤ extra then 1
    else 0
  else 0

/-- Everything the per-date loop body of `build_master` (lines 274–390)
contributes for one day: the status used for the counters (before the
late `P`→`L` rewrite), the status appended to the daily sequence (after
it), worked hours, the late flag, the day's OT and comp-off increment. -/
structure DayOut where
  status_pre_late : String
  recorded_status : String
  wh : ℚ
  late_flag : Bool
  ot_today : ℤ
  coff_inc : ℚ
deriving DecidableEq, Repr

/-- Embeds one iteration of the per-date loop of `build_master` (lines
274–390) as a pure function of the day's cell data, the schedules table,
the OT filter and the parsed comment directive. -/
def evalDay (sched : String → Option ℕ) (filter_set : Option (List String))
    (emp_id status : String) (t_in t_out : Option ℚ)
    (shift_code late_txt : String) (ov : Override) : DayOut :=
  let t_out1 := computeTOut t_in t_out ov.extra_wh
  let wh := computeWH t_in t_out1
  let fs := resolveStatus status wh ov
  let lf := computeLate sched fs t_in shift_code late_txt ov
  let otB := otBranchOf filter_set emp_id
  { status_pre_late := fs,
    recorded_status := if lf ∧ fs = "P" then "L" else fs,
    wh := wh,
    late_flag := lf,
    ot_today := computeOT otB wh,
    coff_inc := computeCoff otB wh }

/-- Models `filter_set = {str(c).strip() for c in ot_filter} if ot_filter
else None` (`build_master` lines 239–241): an absent or empty `ot_filter`
yields `None`. -/
def mkFilterSet (ot_filter : Option (List String)) : Option (List String) :=
  match ot_filter with
  | none => none
  | some l => if l.isEmpty then none else some (l.map String.trim)

/-- The per-employee accumulators of `build_master` (lines 259–266). -/
structure Totals where
  present : ℚ := 0
  leave : ℕ := 0
  c_off : ℚ := 0
  od1 : ℕ := 0
  od2 : ℕ := 0
  late : ℕ := 0
  ot_hours_total : ℤ := 0
  total_actual_wh : ℚ := 0
deriving DecidableEq, Repr

/-- Counter updates from the resolved status (`build_master` lines
320–336), applied before the late `P`→`L` rewrite. -/
def statusCounters (t : Totals) (s : String) : Totals :=
  if s = "P" then { t with present := t.present + 1 }
  else if s = "0.5P" then { t with present := t.present + 1 / 2 }
  else if s = "L" then { t with present := t.present + 1 }
  else if s = "OD1" then { t with present := t.present + 1, od1 := t.od1 + 1 }
  else if s = "OD2" then { t with present := t.present + 1, od2 := t.od2 + 1 }
  else if s = "Leave" then { t with leave := t.leave + 1 }
  else if s = "C-off" then { t with c_off := t.c_off + 1 }
  else t

/-- One day's worth of accumulator updates (`build_master` lines 320–390):
status counters, the late counter, the working-hours total (only days with
`wh > 0` contribute), the OT total and the comp-off tier credit. -/
def stepTotals (t : Totals) (d : DayOut) : Totals :=
  let t1 := statusCounters t d.status_pre_late
  let t2 := if d.late_flag then { t1 with late := t1.late + 1 } else t1
  let t3 :=
    if 0 < d.wh then { t2 with total_actual_wh := t2.total_actual_wh + d.wh }
    else t2
  { t3 with ot_hours_total := t3.ot_hours_total + d.ot_today,
            c_off := t3.c_off + d.coff_inc }

/-- One row of the master sheet (`build_master` lines 396–400, with the
column names of lines 409–414). -/
structure MasterRow where
  sr_no : ℕ
  emp_id : String
  emp_name : String
  daily_status : List String
  present : ℚ
  leave : ℕ
  w_off : ℕ
  holiday : ℕ
  total : ℕ
  c_off : ℚ
  ta_adjusted : ℕ
  ta : ℕ
  od1 : ℕ
  od2 : ℕ
  avg_wh : ℚ
  ot : ℤ
  late_marks : ℕ
  leave_cut : String
  remarks : String
deriving DecidableEq, Repr

/-- Builds one employee's master row from the day sequence (`build_master`
lines 394–400): the accumulators are folded over the days, the average is
the working-hours total over the number of days in the period rounded to
two decimals, and the `W. off`, `Holiday`, `TA adjusted`, `TA`,
`Leave cut` and `Remarks` cells are the hardcoded constants of line 398
and 399. -/
def buildMasterRow (sr_idx : ℕ) (emp_id emp_name : String)
    (days : List DayOut) : MasterRow :=
  let t := days.foldl stepTotals {}
  let num_days := days.length
  { sr_no := sr_idx + 1,
    emp_id := emp_id,
    emp_name := emp_name,
    daily_status := days.map (·.recorded_status),
    present := t.present,
    leave := t.leave,
    w_off := 5,
    holiday := 0,
    total := num_days,
    c_off := t.c_off,
    ta_adjusted := 20,
    ta := 19,
    od1 := t.od1,
    od2 := t.od2,
    avg_wh := if 0 < num_days then pyround2 (t.total_actual_wh / num_days) else 0,
    ot := t.ot_hours_total,
    late_marks := t.late,
    leave_cut := "",
    remarks := "" }

/-! Helper lemmas shared by the claim theorems. -/

/-- A successfully parsed `"HH:MM"` value is under one day of minutes. -/
lemma parseHHMMC_lt_1440 (cs : List Char) (v : ℕ) (h : parseHHMMC cs = some v) :
    v < 1440 := by
  unfold parseHHMMC at h
  rcases hsp : splitOnC [':'] cs with _ | ⟨a, _ | ⟨b, _ | _⟩⟩ <;>
    rw [hsp] at h <;> simp at h
  obtain ⟨-, ⟨ha, hb⟩, hv⟩ := h
  omega

/-- The status-driven counter updates never touch the working-hours
accumulator. -/
lemma statusCounters_total_wh (t : Totals) (s : String) :
    (statusCounters t s).total_actual_wh = t.total_actual_wh := by
  unfold statusCounters
  split_ifs <;> rfl

/-- One accumulator step adds the day's hours to the working-hours total
exactly when they are positive. -/
lemma stepTotals_total_wh (t : Totals) (d : DayOut) :
    (stepTotals t d).total_actual_wh
      = t.total_actual_wh + (if 0 < d.wh then d.wh else 0) := by
  simp only [stepTotals]
  split_ifs <;> simp [statusCounters_total_wh]

/-- Folding the accumulator over a day sequence totals exactly the positive
per-day worked hours. -/
lemma foldl_total_wh (days : List DayOut) (t : Totals) :
    (days.foldl stepTotals t).total_actual_wh
      = t.total_actual_wh + ((days.filter (fun d => 0 < d.wh)).map DayOut.wh).sum := by
  induction days generalizing t with
  | nil => simp
  | cons d ds ih =>
    rw [List.foldl_cons, ih, stepTotals_total_wh]
    by_cases h : 0 < d.wh
    · simp [List.filter_cons, h]
      ring
    · simp [List.filter_cons, h]

/-! Claim theorems. -/

/-- C1 (counterexample): a record with raw status `P`, punches 09:00–14:30
(worked hours exactly 5.5) and no directive is resolved to `0.5P`, not
`P`: the claimed half-day window "4.5h inclusive to 5.5h exclusive" is
not what the evaluator applies. -/
theorem C1_counterexample :
    (evalDay parsedShiftSchedules none "1" "P" (some 540) (some 870) "GS" "" {}).wh = 11 / 2 ∧
    (evalDay parsedShiftSchedules none "1" "P" (some 540) (some 870) "GS" "" {}).recorded_status = "0.5P" ∧
    (evalDay parsedShiftSchedules none "1" "P" (some 540) (some 870) "GS" "" {}).recorded_status ≠ "P" := by
  have hs : lateCheckStart parsedShiftSchedules "GS" = some 570 := by decide
  refine ⟨?_, ?_, ?_⟩ <;>
    norm_num [evalDay, computeTOut, computeWH, resolveStatus, computeLate, presenceCodes, hs]
  decide

/-- C1 (amended): for a record with raw status `P` (or empty) and no
`force_status` directive, the evaluator's half-day window is 3.0h
inclusive to 7.0h exclusive: `wh ≥ 7` keeps `P`; `3 ≤ wh < 7` yields
`0.5P` unless the directive skips the half-day rule (then `P`); and
`wh < 3` (in particular missing punches, where `wh = 0`) yields `A`. -/
theorem C1_amended_window (sched : String → Option ℕ) (fset : Option (List String))
    (emp status : String) (ti tout : Option ℚ) (code lt : String) (ov : Override)
    (d : DayOut) (hd : d = evalDay sched fset emp status ti tout code lt ov)
    (hforce : ov.force_status = none) (hstat : status = "P" ∨ status = "") :
    (7 ≤ d.wh → d.status_pre_late = "P") ∧
    (3 ≤ d.wh ∧ d.wh < 7 ∧ ov.skip_half_day = false → d.status_pre_late = "0.5P") ∧
    (3 ≤ d.wh ∧ d.wh < 7 ∧ ov.skip_half_day = true → d.status_pre_late = "P") ∧
    (d.wh < 3 → d.status_pre_late = "A") := by
  subst hd
  simp only [evalDay, resolveStatus, hforce]
  rw [if_pos hstat]
  set w := computeWH ti (computeTOut ti tout ov.extra_wh) with hw
  refine ⟨fun h => by rw [if_pos h], fun h => ?_, fun h => ?_, fun h => ?_⟩
  · rw [if_neg (by linarith [h.2.1]), if_pos ⟨h.1, h.2.1⟩]
    simp [h.2.2]
  · rw [if_neg (by linarith [h.2.1]), if_pos ⟨h.1, h.2.1⟩]
    simp [h.2.2]
  · rw [if_neg (by linarith), if_neg (by intro hc; linarith [hc.1])]

/-- C1 (witness): the amended window theorem applied at punches
09:00–15:30 (worked hours 6.5, inside the actual window) gives `0.5P`. -/
theorem C1_amended_window_witness :
    (evalDay parsedShiftSchedules none "1" "P" (some 540) (some 930) "GS" "" {}).status_pre_late = "0.5P" :=
  (C1_amended_window parsedShiftSchedules none "1" "P" (some 540) (some 930) "GS" "" {}
    _ rfl rfl (Or.inl rfl)).2.1
    ⟨by norm_num [evalDay, computeTOut, computeWH],
     by norm_num [evalDay, computeTOut, computeWH], rfl⟩

/-- C2 (counterexample): with no OT filter supplied (`mkFilterSet none`)
and worked hours 16 (so `extra = 7.5`, in the 1.0-credit comp-off tier),
the evaluator accrues `ot_today = 7` and no comp-off — the opposite of the
claim that absence of the set makes every employee accrue comp-off with
`ot_hours = 0`. -/
theorem C2_counterexample :
    (evalDay parsedShiftSchedules (mkFilterSet none) "1" "P" (some 240) (some 1200) "GS" "" {}).wh = 16 ∧
    (evalDay parsedShiftSchedules (mkFilterSet none) "1" "P" (some 240) (some 1200) "GS" "" {}).coff_inc = 0 ∧
    (evalDay parsedShiftSchedules (mkFilterSet none) "1" "P" (some 240) (some 1200) "GS" "" {}).ot_today = 7 := by
  have hs : lateCheckStart parsedShiftSchedules "GS" = some 570 := by decide
  refine ⟨?_, ?_, ?_⟩ <;>
    norm_num [evalDay, computeTOut, computeWH, resolveStatus, computeLate, presenceCodes, hs,
      mkFilterSet, otBranchOf, computeOT, computeCoff, pytrunc]

/-- C2 (amended): when no OT-eligible set is supplied, every employee is
on the OT branch of the accrual: the comp-off increment is always `0` and
the day's overtime is computed by the OT-branch rule. -/
theorem C2_amended_no_filter (sched : String → Option ℕ) (emp status : String)
    (ti tout : Option ℚ) (code lt : String) (ov : Override) :
    (evalDay sched (mkFilterSet none) emp status ti tout code lt ov).coff_inc = 0 ∧
    (evalDay sched (mkFilterSet none) emp status ti tout code lt ov).ot_today
      = computeOT true (evalDay sched (mkFilterSet none) emp status ti tout code lt ov).wh := by
  constructor <;>
    simp [evalDay, mkFilterSet, otBranchOf, computeCoff, ite_self]

/-- C3: a comment starting with `"in:"` does produce the explicit `False`
late verdict, but the evaluator then uses that `False` as the numeric
threshold `0`, so an in-time 10 minutes after the scheduled 09:30 start —
which is not late under the default 15-minute threshold — becomes
late-flagged; the claim (and the code's own comment) say the verdict
should force `late_flag = false`. -/
theorem C3_code_bug_eval :
    (override_by_comment "in: 09:40" (some 580) none).late_override = some (.asBool false) ∧
    (evalDay parsedShiftSchedules none "7" "P" (some 580) (some 1110) "GS" "" {}).late_flag = false ∧
    (evalDay parsedShiftSchedules none "7" "P" (some 580) (some 1110) "GS" ""
      (override_by_comment "in: 09:40" (some 580) none)).late_flag = true := by
  have hov : override_by_comment "in: 09:40" (some 580) none
      = { force_status := some "P", skip_half_day := true,
          late_override := some (.asBool false), extra_wh := 0 } := by decide
  have hs : lateCheckStart parsedShiftSchedules "GS" = some 570 := by decide
  rw [hov]
  refine ⟨rfl, ?_, ?_⟩ <;>
    norm_num [evalDay, computeTOut, computeWH, resolveStatus, computeLate,
      presenceCodes, hs, LateOv.threshold]

/-- C4 (counterexample): the comment `"out: late: 30"` matches the
`"out:"`-alone rule (it contains `"out:"` and not `"back in:"`), yet the
later `"late:"` rule still contributes `late_override = 30` — the
`"out:"` rules do not return immediately. -/
theorem C4_counterexample :
    pyContainsC (lowerC (trimC "out: late: 30".toList)) "out:".toList = true ∧
    pyContainsC (lowerC (trimC "out: late: 30".toList)) "back in:".toList = false ∧
    (override_by_comment "out: late: 30" none none).late_override
      = some (.asMinutes 30) := by
  decide

/-- C4 (amended): only the `"short leave"`, `"half day"` and `"in:"` rules
return immediately; the `"out:"` block falls through, so for every comment
that matches the `"out:"`-alone condition and also carries a well-formed
trailing `"late:"` payload, the `"late:"` rule still sets the minutes
threshold in the resulting directive. -/
theorem C4_amended_no_early_return (note : String) (ti tout : Option ℚ)
    (k : ℤ) (tail : List Char)
    (h0 : ¬ (note = ""))
    (h1 : ¬ (lowerC (trimC note.toList) = "short leave".toList))
    (h2 : ¬ (lowerC (trimC note.toList) = "half day".toList))
    (_hout : pyContainsC (lowerC (trimC note.toList)) "out:".toList = true)
    (_hback : pyContainsC (lowerC (trimC note.toList)) "back in:".toList = false)
    (h3 : startsWithC "in:".toList (lowerC (trimC note.toList)) = false)
    (h4 : pyContainsC (lowerC (trimC note.toList)) "late:".toList = true)
    (h5 : (splitOnC "late:".toList (lowerC (trimC note.toList))).get? 1 = some tail)
    (h6 : pyIntC (trimC tail) = some k) :
    (override_by_comment note ti tout).late_override = some (.asMinutes k) := by
  simp only [override_by_comment, if_neg h0, if_neg h1, if_neg h2, h3, h4, h5, h6,
    Bool.false_eq_true, if_false, if_true]

/-- C4 (witness): the amended theorem applied to
`"out: left early late: 25"`. -/
theorem C4_amended_no_early_return_witness :
    (override_by_comment "out: left early late: 25" none none).late_override
      = some (.asMinutes 25) :=
  C4_amended_no_early_return "out: left early late: 25" none none 25 " 25".toList
    (by decide) (by decide) (by decide) (by decide) (by decide) (by decide)
    (by decide) (by decide) (by decide)

/-- C5 (counterexample): punches 09:00–18:00 (9 punch-derived hours) with
the directive parsed from `"out: 9:00 back in: 10:30"` (which supplies
`extra_worked_hours = 1.5`) yield `worked_hours = 1.5`, not `9 + 1.5`:
the adjustment replaces the punch-derived duration instead of being added
to it. -/
theorem C5_counterexample :
    (override_by_comment "out: 9:00 back in: 10:30" (some 540) (some 1080)).extra_wh = 3 / 2 ∧
    (evalDay parsedShiftSchedules none "1" "P" (some 540) (some 1080) "GS" ""
      (override_by_comment "out: 9:00 back in: 10:30" (some 540) (some 1080))).wh = 3 / 2 := by
  have hts : (scanTimeTokens "out: 9:00 back in: 10:30".toList).filterMap dtParseTime
      = [32400, 37800] := by decide
  have hc1 : pyContainsC (lowerC (trimC "out: 9:00 back in: 10:30".toList)) "out:".toList = true := by
    decide
  have hc2 : pyContainsC (lowerC (trimC "out: 9:00 back in: 10:30".toList)) "back in:".toList = true := by
    decide
  have hst : startsWithC "in:".toList (lowerC (trimC "out: 9:00 back in: 10:30".toList)) = false := by
    decide
  have hl : pyContainsC (lowerC (trimC "out: 9:00 back in: 10:30".toList)) "late:".toList = false := by
    decide
  have hov : override_by_comment "out: 9:00 back in: 10:30" (some 540) (some 1080)
      = { force_status := some "P", skip_half_day := true,
          extra_wh := ((37800 : ℚ) - 32400) / 3600 } := by
    simp only [override_by_comment, outBranch, hc1, hc2, hst, hts,
      eq_false (by decide : ¬("out: 9:00 back in: 10:30" = "")),
      eq_false (by decide : ¬(lowerC (trimC "out: 9:00 back in: 10:30".toList) = "short leave".toList)),
      eq_false (by decide : ¬(lowerC (trimC "out: 9:00 back in: 10:30".toList) = "half day".toList)),
      hl, if_true, if_false, Bool.false_eq_true]
    norm_num [Override.mk.injEq]
  rw [hov]
  constructor
  · norm_num
  · norm_num [evalDay, computeTOut, computeWH]

/-- C5 (amended): whenever a directive supplies `extra_worked_hours > 0`
and an in-time exists, the day's worked hours equal exactly
`extra_worked_hours` — the out-time is recomputed as
`in_time + extra_worked_hours`, replacing (not augmenting) the
punch-derived duration, whatever the recorded out-punch was. -/
theorem C5_amended_replacement (sched : String → Option ℕ) (fset : Option (List String))
    (emp status : String) (ti : ℚ) (tout : Option ℚ) (code lt : String)
    (ov : Override) (h : 0 < ov.extra_wh) :
    (evalDay sched fset emp status (some ti) tout code lt ov).wh = ov.extra_wh := by
  have h60 : ¬ (ti + ov.extra_wh * 60 < ti) := by nlinarith
  simp only [evalDay, computeTOut, computeWH, if_pos h, if_neg h60]
  field_simp

/-- C5 (witness): the amended theorem applied at in-time 10:00, out-punch
19:00 and `extra_worked_hours = 2.5` gives worked hours 2.5. -/
theorem C5_amended_replacement_witness :
    (evalDay parsedShiftSchedules none "1" "P" (some 600) (some 1140) "GS" ""
      { force_status := some "P", skip_half_day := true, extra_wh := 5 / 2 }).wh = 5 / 2 :=
  C5_amended_replacement parsedShiftSchedules none "1" "P" 600 (some 1140) "GS" ""
    { force_status := some "P", skip_half_day := true, extra_wh := 5 / 2 } (by norm_num)

/-- C6 (counterexample): an employee 20 minutes late (in 09:50 against the
09:30 General Shift start) with worked hours above 7 resolves to `P`, is
late-flagged, and the recorded daily status becomes `"L"`, not `"P"`. -/
theorem C6_counterexample :
    (evalDay parsedShiftSchedules none "1" "P" (some 590) (some 1110) "GS" "" {}).late_flag = true ∧
    (evalDay parsedShiftSchedules none "1" "P" (some 590) (some 1110) "GS" "" {}).status_pre_late = "P" ∧
    (evalDay parsedShiftSchedules none "1" "P" (some 590) (some 1110) "GS" "" {}).recorded_status = "L" := by
  have hs : lateCheckStart parsedShiftSchedules "GS" = some 570 := by decide
  refine ⟨?_, ?_, ?_⟩ <;>
    norm_num [evalDay, computeTOut, computeWH, resolveStatus, computeLate, presenceCodes, hs]

/-- C6 (amended): whenever the late flag is set and the resolved status is
`"P"`, the status recorded in the daily sequence is rewritten to `"L"`
(the late counter is also incremented); presence is not surfaced as a
late-flagged `"P"`. -/
theorem C6_amended_late_rewrites_P (sched : String → Option ℕ) (fset : Option (List String))
    (emp status : String) (ti tout : Option ℚ) (code lt : String) (ov : Override)
    (d : DayOut) (hd : d = evalDay sched fset emp status ti tout code lt ov)
    (h1 : d.late_flag = true) (h2 : d.status_pre_late = "P") :
    d.recorded_status = "L" := by
  subst hd
  simp only [evalDay] at h1 h2 ⊢
  rw [if_pos ⟨h1, h2⟩]

/-- C6 (witness): the amended theorem applied to a First Shift employee
punching in 08:30 (30 minutes past the 08:00 start) and out 17:30. -/
theorem C6_amended_late_rewrites_P_witness :
    (evalDay parsedShiftSchedules none "2" "P" (some 510) (some 1050) "FS" "" {}).recorded_status = "L" := by
  have hs : lateCheckStart parsedShiftSchedules "FS" = some 480 := by decide
  exact C6_amended_late_rewrites_P parsedShiftSchedules none "2" "P" (some 510) (some 1050) "FS" "" {} _ rfl
    (by norm_num [evalDay, computeTOut, computeWH, resolveStatus, computeLate, presenceCodes, hs])
    (by norm_num [evalDay, computeTOut, computeWH, resolveStatus])

/-- C7: for every OT-eligible employee-day (the filter is absent or
contains the employee), positive worked hours with
`extra = worked_hours - 8.5 > 0` give
`ot_hours = floor(extra) + (1 if frac(extra) ≥ 0.75 else 0)`, and
`extra ≤ 0` gives `ot_hours = 0`. -/
theorem C7_ot_rounding (sched : String → Option ℕ) (fset : Option (List String))
    (emp status : String) (ti tout : Option ℚ) (code lt : String) (ov : Override)
    (helig : otBranchOf fset emp = true)
    (d : DayOut) (hd : d = evalDay sched fset emp status ti tout code lt ov) :
    (0 < d.wh → 0 < d.wh - 17 / 2 →
      d.ot_today = ⌊d.wh - 17 / 2⌋ +
        (if 3 / 4 ≤ d.wh - 17 / 2 - (⌊d.wh - 17 / 2⌋ : ℚ) then 1 else 0)) ∧
    (d.wh - 17 / 2 ≤ 0 → d.ot_today = 0) := by
  subst hd
  simp only [evalDay, computeOT, helig]
  set w := computeWH ti (computeTOut ti tout ov.extra_wh) with hw
  constructor
  · intro h hx
    rw [if_pos h, if_pos trivial, if_pos hx]
    have htr : pytrunc (w - 17 / 2) = ⌊w - 17 / 2⌋ := by
      unfold pytrunc
      rw [if_pos (le_of_lt hx)]
    rw [htr]
  · intro hle
    split_ifs <;> first | rfl | linarith

/-- C7 (witness): at worked hours 10.25 (`extra = 1.75`), the OT rounding
theorem gives 2 hours of overtime. -/
theorem C7_ot_rounding_witness :
    (evalDay parsedShiftSchedules none "1" "P" (some 540) (some 1155) "GS" "" {}).ot_today = 2 := by
  have h := (C7_ot_rounding parsedShiftSchedules none "1" "P" (some 540) (some 1155) "GS" "" {}
    rfl _ rfl).1
    (by norm_num [evalDay, computeTOut, computeWH])
    (by norm_num [evalDay, computeTOut, computeWH])
  rw [h]
  norm_num [evalDay, computeTOut, computeWH]

/-- C8: for every nonempty day sequence, the master row's average worked
hours equal the sum of worked hours over the days with positive worked
hours, divided by the total number of days in the period (not by the
number of days with nonzero punches), rounded to two decimals. -/
theorem C8_avg_over_all_days (sr : ℕ) (emp name : String) (days : List DayOut)
    (h : days ≠ []) :
    (buildMasterRow sr emp name days).avg_wh
      = pyround2 ((((days.filter (fun d => 0 < d.wh)).map DayOut.wh).sum) / (days.length : ℚ)) := by
  have hlen : 0 < days.length := List.length_pos.mpr h
  simp only [buildMasterRow, if_pos hlen, foldl_total_wh]
  norm_num

/-- C8 (witness): a two-day period with 9 worked hours on one day and none
on the other averages `9 / 2 = 4.5`, i.e. the divisor is the period
length 2, not the single day with punches. -/
theorem C8_avg_over_all_days_witness :
    (buildMasterRow 0 "5" "E"
      [⟨"P", "P", 9, false, 0, 0⟩, ⟨"A", "A", 0, false, 0, 0⟩]).avg_wh = 9 / 2 := by
  have h := C8_avg_over_all_days 0 "5" "E"
    [⟨"P", "P", 9, false, 0, 0⟩, ⟨"A", "A", 0, false, 0, 0⟩] (by simp)
  rw [h]
  norm_num [List.filter, pyround2]

/-- C9 (counterexample): the range `"09:00 - 09:00"` parses with both
components equal, so the claimed strict `start < end` ordering fails for
equal-time ranges. -/
theorem C9_counterexample :
    ¬ (∀ (s : String) (st en : ℕ), parse_hhmm_range s = (some st, some en) → st < en) := by
  intro h
  exact lt_irrefl 540 (h "09:00 - 09:00" 540 540 (by decide))

/-- C9 (amended): for every range string whose two components parse, the
normalized window satisfies `start ≤ end` and `end < start + 24h` (24
hours are added exactly when the parsed end is earlier than the start);
the ordering is strict except when the two parsed times are equal, where
`end = start`. -/
theorem C9_amended_range_order (s : String) (st en : ℕ)
    (h : parse_hhmm_range s = (some st, some en)) :
    st ≤ en ∧ en < st + 1440 := by
  unfold parse_hhmm_range at h
  rcases hsp : splitOnC ['-'] (trimC s.toList) with _ | ⟨a, _ | ⟨b, _ | _⟩⟩ <;>
    rw [hsp] at h <;> simp at h
  rcases hpa : parseHHMMC (trimC a) with _ | ta <;> rw [hpa] at h <;>
    rcases hpb : parseHHMMC (trimC b) with _ | tb <;> rw [hpb] at h <;> simp at h
  have hb1 := parseHHMMC_lt_1440 _ _ hpa
  have hb2 := parseHHMMC_lt_1440 _ _ hpb
  obtain ⟨h1, h2⟩ := h
  subst h1
  split at h2 <;> omega

/-- C9 (witness): the overnight Night Shift range `"20:00 - 08:00"`
normalizes to 20:00–32:00 with the amended ordering. -/
theorem C9_amended_range_order_witness : (1200 : ℕ) ≤ 1920 ∧ (1920 : ℕ) < 1200 + 1440 :=
  C9_amended_range_order "20:00 - 08:00" 1200 1920 (by decide)

/-- C10: every master row carries the hardcoded constants `W. off = 5`,
`Holiday = 0`, `TA adjusted = 20`, `TA = 19` and empty `Leave cut` and
`Remarks` cells, independent of the employee's day data. -/
theorem C10_hardcoded_constants (sr : ℕ) (emp name : String) (days : List DayOut) :
    (buildMasterRow sr emp name days).w_off = 5 ∧
    (buildMasterRow sr emp name days).holiday = 0 ∧
    (buildMasterRow sr emp name days).ta_adjusted = 20 ∧
    (buildMasterRow sr emp name days).ta = 19 ∧
    (buildMasterRow sr emp name days).leave_cut = "" ∧
    (buildMasterRow sr emp name days).remarks = "" :=
  ⟨rfl, rfl, rfl, rfl, rfl, rfl⟩

end Attendance
